import Mathlib

/-!
Verification of the event-to-report translation engine of the
pi500-usb-hid-keyboard bridge (pi500-hid-bridge.py, hid-keyboard-bridge.py,
hid-mouse-bridge.py).

The Python source is shallowly embedded: pure report-building functions
become Lean functions on `Nat`/`Int` lists, the keyboard/mouse event loops
become explicit step functions folded over event lists, and the resilient
endpoint writer becomes a function over a script of per-attempt outcomes.
Where the two keyboard scripts duplicate a function, the embedding follows
pi500-hid-bridge.py, whose `write_report` carries the full retry policy.
-/

/-! ## Report codec (pi500-hid-bridge.py lines 173-200) -/

/-- Embedding of `build_keyboard_report(mod_mask, pressed_usages)`:
`keys = sorted(pressed_usages)[:6]`, padded with zeros to 6 entries,
then `bytes([mod_mask & 0xFF, 0x00] + keys)`.  Python `& 0xFF` on a
nonnegative int is `% 256`. -/
def build_keyboard_report (mod_mask : ℕ) (pressed_usages : Finset ℕ) : List ℕ :=
  let keys := (pressed_usages.sort (· ≤ ·)).take 6
  [mod_mask % 256, 0] ++ keys ++ List.replicate (6 - keys.length) 0

/-- Embedding of `clamp(value)` with its default bounds -127/127. -/
def clamp (value : ℤ) : ℤ := max (-127) (min 127 value)

/-- Embedding of `signed_byte(value)`: `(256 + value) & 0xFF` for negative
input and `value & 0xFF` otherwise; Python `& 0xFF` is mod 256. -/
def signed_byte (value : ℤ) : ℕ :=
  if value < 0 then ((256 + value) % 256).toNat else (value % 256).toNat

/-- Two's-complement decoding of one byte, used to state properties of the
mouse report's motion bytes. -/
def decode_s8 (b : ℕ) : ℤ := if 128 ≤ b then (b : ℤ) - 256 else (b : ℤ)

/-- Embedding of `build_mouse_report(buttons, dx, dy, wheel)`. -/
def build_mouse_report (buttons : ℕ) (dx dy wheel : ℤ) : List ℕ :=
  [buttons % 256, signed_byte (clamp dx), signed_byte (clamp dy),
    signed_byte (clamp wheel)]

/-! ## C1 helper facts -/

lemma take_sort_length (S : Finset ℕ) :
    ((S.sort (· ≤ ·)).take 6).length = min S.card 6 := by
  rw [List.length_take, Finset.length_sort, Nat.min_comm]

lemma take_sort_sorted_lt (S : Finset ℕ) :
    List.Sorted (· < ·) ((S.sort (· ≤ ·)).take 6) :=
  (S.sort_sorted_lt).sublist (List.take_sublist 6 _)

lemma mem_take_sort (S : Finset ℕ) {u : ℕ} (h : u ∈ (S.sort (· ≤ ·)).take 6) :
    u ∈ S :=
  (Finset.mem_sort (α := ℕ) (· ≤ ·)).mp (List.mem_of_mem_take h)

lemma take_sort_lowest (S : Finset ℕ) {u : ℕ} (hu : u ∈ S)
    (hnot : u ∉ (S.sort (· ≤ ·)).take 6) :
    ∀ v ∈ (S.sort (· ≤ ·)).take 6, v < u := by
  intro v hv
  have hsorted : List.Sorted (· < ·) (S.sort (· ≤ ·)) := S.sort_sorted_lt
  have hsplit := List.take_append_drop 6 (S.sort (· ≤ ·))
  rw [← hsplit] at hsorted
  have hmem : u ∈ (S.sort (· ≤ ·)) := (Finset.mem_sort (α := ℕ) (· ≤ ·)).mpr hu
  rw [← hsplit, List.mem_append] at hmem
  have hdrop : u ∈ (S.sort (· ≤ ·)).drop 6 := hmem.resolve_left hnot
  exact (List.pairwise_append.mp hsorted).2.2 v hv u hdrop

/-- C1: for a modifier mask in [0,255] and a set of distinct usages in
1..255, the keyboard report is exactly 8 bytes, byte0 is the mask, byte1 is
zero, and bytes 2..7 are the lowest min(|S|,6) usages of S in strictly
ascending order, zero-padded on the right; every usage of S that does not
appear is larger than every usage that does.  Determinism is immediate:
the embedding is a function of its arguments. -/
theorem c1_build_keyboard_report (m : ℕ) (S : Finset ℕ)
    (hm : m ≤ 255) (hS : ∀ u ∈ S, 1 ≤ u ∧ u ≤ 255) :
    (build_keyboard_report m S).length = 8 ∧
    ∃ ks : List ℕ,
      build_keyboard_report m S =
        m :: 0 :: (ks ++ List.replicate (6 - ks.length) 0) ∧
      ks.length = min S.card 6 ∧
      List.Sorted (· < ·) ks ∧
      (∀ u ∈ ks, u ∈ S ∧ 1 ≤ u ∧ u ≤ 255) ∧
      (∀ u ∈ S, u ∉ ks → ∀ v ∈ ks, v < u) := by
  have hlen6 : ((S.sort (· ≤ ·)).take 6).length ≤ 6 := by
    rw [List.length_take]; exact Nat.min_le_left _ _
  constructor
  · show ([m % 256, 0] ++ (S.sort (· ≤ ·)).take 6
        ++ List.replicate (6 - ((S.sort (· ≤ ·)).take 6).length) 0).length = 8
    rw [List.length_append, List.length_append, List.length_replicate]
    simp only [List.length_cons, List.length_nil]
    omega
  · refine ⟨(S.sort (· ≤ ·)).take 6, ?_, take_sort_length S,
      take_sort_sorted_lt S, ?_, ?_⟩
    · simp only [build_keyboard_report, Nat.mod_eq_of_lt (by omega : m < 256)]
      simp
    · intro u hu
      exact ⟨mem_take_sort S hu, hS u (mem_take_sort S hu)⟩
    · intro u hu hnot
      exact take_sort_lowest S hu hnot

/-- Witness for C1 at a concrete input: mask 5 and usage set {30, 4, 9}. -/
theorem c1_build_keyboard_report_witness :
    (5 ≤ 255 ∧ ∀ u ∈ ({30, 4, 9} : Finset ℕ), 1 ≤ u ∧ u ≤ 255) ∧
    ((build_keyboard_report 5 {30, 4, 9}).length = 8 ∧
     ∃ ks : List ℕ,
       build_keyboard_report 5 {30, 4, 9} =
         5 :: 0 :: (ks ++ List.replicate (6 - ks.length) 0) ∧
       ks.length = min ({30, 4, 9} : Finset ℕ).card 6 ∧
       List.Sorted (· < ·) ks ∧
       (∀ u ∈ ks, u ∈ ({30, 4, 9} : Finset ℕ) ∧ 1 ≤ u ∧ u ≤ 255) ∧
       (∀ u ∈ ({30, 4, 9} : Finset ℕ), u ∉ ks → ∀ v ∈ ks, v < u)) :=
  ⟨⟨by decide, by decide⟩,
    c1_build_keyboard_report 5 {30, 4, 9} (by decide) (by decide)⟩

/-! ## C2 -/

lemma decode_signed_clamp (v : ℤ) :
    decode_s8 (signed_byte (clamp v)) = max (-127) (min 127 v) := by
  have h1 : -127 ≤ max (-127) (min 127 v) := le_max_left _ _
  have h2 : max (-127) (min 127 v) ≤ 127 :=
    max_le (by norm_num) (min_le_left _ _)
  unfold clamp signed_byte decode_s8
  split_ifs <;> omega

/-- C2: for buttons in [0,7] and motion values in [-1000,1000], the mouse
report is exactly 4 bytes, byte0 equals the button mask, and each motion
byte decodes (two's complement) to the saturating clamp of its input to
[-127,127]: inputs beyond the range map to -127 or 127, in-range inputs
pass through unchanged, and nothing wraps. -/
theorem c2_build_mouse_report (buttons : ℕ) (dx dy wheel : ℤ)
    (hb : buttons ≤ 7)
    (hdx : -1000 ≤ dx ∧ dx ≤ 1000) (hdy : -1000 ≤ dy ∧ dy ≤ 1000)
    (hw : -1000 ≤ wheel ∧ wheel ≤ 1000) :
    (build_mouse_report buttons dx dy wheel).length = 4 ∧
    (build_mouse_report buttons dx dy wheel).get? 0 = some buttons ∧
    (Option.map decode_s8 ((build_mouse_report buttons dx dy wheel).get? 1) =
       some (max (-127) (min 127 dx)) ∧
     Option.map decode_s8 ((build_mouse_report buttons dx dy wheel).get? 2) =
       some (max (-127) (min 127 dy)) ∧
     Option.map decode_s8 ((build_mouse_report buttons dx dy wheel).get? 3) =
       some (max (-127) (min 127 wheel))) ∧
    ((127 < dx → max (-127) (min 127 dx) = 127) ∧
     (dx < -127 → max (-127) (min 127 dx) = -127) ∧
     (-127 ≤ dx → dx ≤ 127 → max (-127) (min 127 dx) = dx)) := by
  refine ⟨rfl, ?_, ⟨?_, ?_, ?_⟩, ⟨?_, ?_, ?_⟩⟩
  · simp [build_mouse_report, Nat.mod_eq_of_lt (by omega : buttons < 256)]
  · simp [build_mouse_report, decode_signed_clamp]
  · simp [build_mouse_report, decode_signed_clamp]
  · simp [build_mouse_report, decode_signed_clamp]
  · intro h
    rw [min_eq_left (by omega), max_eq_right (by norm_num)]
  · intro h
    rw [min_eq_right (by omega), max_eq_left (by omega)]
  · intro h1 h2
    rw [min_eq_right h2, max_eq_right h1]

/-- Witness for C2 at a concrete input: buttons 1, dx 200 (saturates to
127), dy -3, wheel 0. -/
theorem c2_build_mouse_report_witness :
    ((1 : ℕ) ≤ 7 ∧ (-1000 ≤ (200 : ℤ) ∧ (200 : ℤ) ≤ 1000)) ∧
    ((build_mouse_report 1 200 (-3) 0).length = 4 ∧
     (build_mouse_report 1 200 (-3) 0).get? 0 = some 1 ∧
     (Option.map decode_s8 ((build_mouse_report 1 200 (-3) 0).get? 1) =
        some (max (-127) (min 127 200)) ∧
      Option.map decode_s8 ((build_mouse_report 1 200 (-3) 0).get? 2) =
        some (max (-127) (min 127 (-3))) ∧
      Option.map decode_s8 ((build_mouse_report 1 200 (-3) 0).get? 3) =
        some (max (-127) (min 127 0))) ∧
     ((127 < (200 : ℤ) → max (-127) (min 127 (200 : ℤ)) = 127) ∧
      ((200 : ℤ) < -127 → max (-127) (min 127 (200 : ℤ)) = -127) ∧
      (-127 ≤ (200 : ℤ) → (200 : ℤ) ≤ 127 →
        max (-127) (min 127 (200 : ℤ)) = 200))) :=
  ⟨⟨by decide, by decide⟩,
    c2_build_mouse_report 1 200 (-3) 0 (by decide) (by decide)
      (by decide) (by decide)⟩

/-! ## Keyboard translator (pi500-hid-bridge.py lines 32-124 and 288-328)

Linux `ecodes.KEY_*` constants are the numeric keycodes of the kernel's
input-event interface; the tables below restate the two source dictionaries
with those numeric values. -/

/-- Embedding of the `MODIFIER_KEYS` dictionary: Linux keycode to HID
modifier bit. -/
def MODIFIER_KEYS : ℕ → Option ℕ
  | 29 => some 0x01    -- KEY_LEFTCTRL
  | 42 => some 0x02    -- KEY_LEFTSHIFT
  | 56 => some 0x04    -- KEY_LEFTALT
  | 125 => some 0x08   -- KEY_LEFTMETA
  | 97 => some 0x10    -- KEY_RIGHTCTRL
  | 54 => some 0x20    -- KEY_RIGHTSHIFT
  | 100 => some 0x40   -- KEY_RIGHTALT
  | 126 => some 0x80   -- KEY_RIGHTMETA
  | _ => none

/-- Embedding of the `KEY_TO_HID` dictionary of pi500-hid-bridge.py: Linux
keycode to USB HID usage ID. -/
def KEY_TO_HID : ℕ → Option ℕ
  | 30 => some 0x04    -- KEY_A
  | 48 => some 0x05    -- KEY_B
  | 46 => some 0x06    -- KEY_C
  | 32 => some 0x07    -- KEY_D
  | 18 => some 0x08    -- KEY_E
  | 33 => some 0x09    -- KEY_F
  | 34 => some 0x0A    -- KEY_G
  | 35 => some 0x0B    -- KEY_H
  | 23 => some 0x0C    -- KEY_I
  | 36 => some 0x0D    -- KEY_J
  | 37 => some 0x0E    -- KEY_K
  | 38 => some 0x0F    -- KEY_L
  | 50 => some 0x10    -- KEY_M
  | 49 => some 0x11    -- KEY_N
  | 24 => some 0x12    -- KEY_O
  | 25 => some 0x13    -- KEY_P
  | 16 => some 0x14    -- KEY_Q
  | 19 => some 0x15    -- KEY_R
  | 31 => some 0x16    -- KEY_S
  | 20 => some 0x17    -- KEY_T
  | 22 => some 0x18    -- KEY_U
  | 47 => some 0x19    -- KEY_V
  | 17 => some 0x1A    -- KEY_W
  | 45 => some 0x1B    -- KEY_X
  | 21 => some 0x1C    -- KEY_Y
  | 44 => some 0x1D    -- KEY_Z
  | 2 => some 0x1E     -- KEY_1
  | 3 => some 0x1F     -- KEY_2
  | 4 => some 0x20     -- KEY_3
  | 5 => some 0x21     -- KEY_4
  | 6 => some 0x22     -- KEY_5
  | 7 => some 0x23     -- KEY_6
  | 8 => some 0x24     -- KEY_7
  | 9 => some 0x25     -- KEY_8
  | 10 => some 0x26    -- KEY_9
  | 11 => some 0x27    -- KEY_0
  | 28 => some 0x28    -- KEY_ENTER
  | 1 => some 0x29     -- KEY_ESC
  | 14 => some 0x2A    -- KEY_BACKSPACE
  | 15 => some 0x2B    -- KEY_TAB
  | 57 => some 0x2C    -- KEY_SPACE
  | 12 => some 0x2D    -- KEY_MINUS
  | 13 => some 0x2E    -- KEY_EQUAL
  | 26 => some 0x2F    -- KEY_LEFTBRACE
  | 27 => some 0x30    -- KEY_RIGHTBRACE
  | 43 => some 0x31    -- KEY_BACKSLASH
  | 39 => some 0x33    -- KEY_SEMICOLON
  | 40 => some 0x34    -- KEY_APOSTROPHE
  | 41 => some 0x35    -- KEY_GRAVE
  | 51 => some 0x36    -- KEY_COMMA
  | 52 => some 0x37    -- KEY_DOT
  | 53 => some 0x38    -- KEY_SLASH
  | 58 => some 0x39    -- KEY_CAPSLOCK
  | 59 => some 0x3A    -- KEY_F1
  | 60 => some 0x3B    -- KEY_F2
  | 61 => some 0x3C    -- KEY_F3
  | 62 => some 0x3D    -- KEY_F4
  | 63 => some 0x3E    -- KEY_F5
  | 64 => some 0x3F    -- KEY_F6
  | 65 => some 0x40    -- KEY_F7
  | 66 => some 0x41    -- KEY_F8
  | 67 => some 0x42    -- KEY_F9
  | 68 => some 0x43    -- KEY_F10
  | 87 => some 0x44    -- KEY_F11
  | 88 => some 0x45    -- KEY_F12
  | 99 => some 0x46    -- KEY_SYSRQ
  | 70 => some 0x47    -- KEY_SCROLLLOCK
  | 119 => some 0x48   -- KEY_PAUSE
  | 110 => some 0x49   -- KEY_INSERT
  | 102 => some 0x4A   -- KEY_HOME
  | 104 => some 0x4B   -- KEY_PAGEUP
  | 111 => some 0x4C   -- KEY_DELETE
  | 107 => some 0x4D   -- KEY_END
  | 109 => some 0x4E   -- KEY_PAGEDOWN
  | 106 => some 0x4F   -- KEY_RIGHT
  | 105 => some 0x50   -- KEY_LEFT
  | 108 => some 0x51   -- KEY_DOWN
  | 103 => some 0x52   -- KEY_UP
  | 69 => some 0x53    -- KEY_NUMLOCK
  | 98 => some 0x54    -- KEY_KPSLASH
  | 55 => some 0x55    -- KEY_KPASTERISK
  | 74 => some 0x56    -- KEY_KPMINUS
  | 78 => some 0x57    -- KEY_KPPLUS
  | 96 => some 0x58    -- KEY_KPENTER
  | 79 => some 0x59    -- KEY_KP1
  | 80 => some 0x5A    -- KEY_KP2
  | 81 => some 0x5B    -- KEY_KP3
  | 75 => some 0x5C    -- KEY_KP4
  | 76 => some 0x5D    -- KEY_KP5
  | 77 => some 0x5E    -- KEY_KP6
  | 71 => some 0x5F    -- KEY_KP7
  | 72 => some 0x60    -- KEY_KP8
  | 73 => some 0x61    -- KEY_KP9
  | 82 => some 0x62    -- KEY_KP0
  | 83 => some 0x63    -- KEY_KPDOT
  | 127 => some 0x65   -- KEY_COMPOSE
  | 139 => some 0x65   -- KEY_MENU
  | 92 => some 0x8A    -- KEY_HENKAN
  | 94 => some 0x8B    -- KEY_MUHENKAN
  | 93 => some 0x88    -- KEY_KATAKANAHIRAGANA
  | 124 => some 0x89   -- KEY_YEN
  | 89 => some 0x87    -- KEY_RO
  | 85 => some 0x94    -- KEY_ZENKAKUHANKAKU
  | _ => none

/-- Keyboard translator state of `run_keyboard_bridge`: the local variables
`mod_mask`, `pressed_keys` (Linux keycodes) and `pressed_usages` (HID
usages). -/
structure KState where
  mod_mask : ℕ
  pressed_keys : Finset ℕ
  pressed_usages : Finset ℕ
deriving DecidableEq

/-- One `EV_KEY` input event: keycode and value (0 = up, 1 = down,
2 = repeat). -/
structure KEvent where
  code : ℕ
  value : ℕ
deriving DecidableEq

/-- Embedding of one iteration of the `run_keyboard_bridge` event loop
body: repeats are dropped; a modifier keycode updates `mod_mask` (Python
`mod_mask &= (~bit & 0xFF)` equals `mod_mask &&& (255 - bit)` for a bit in
[0,255]) and always emits a report; a mapped regular keycode updates both
pressed sets and emits a report; an unmapped keycode does nothing.  The
second component is the report written for this event, if any. -/
def kstep (s : KState) (e : KEvent) : KState × Option (List ℕ) :=
  if e.value = 2 then (s, none)
  else
    match MODIFIER_KEYS e.code with
    | some bit =>
        let m :=
          if e.value = 1 then s.mod_mask ||| bit
          else if e.value = 0 then s.mod_mask &&& (255 - bit)
          else s.mod_mask
        ({ s with mod_mask := m }, some (build_keyboard_report m s.pressed_usages))
    | none =>
        match KEY_TO_HID e.code with
        | none => (s, none)
        | some u =>
            let s2 :=
              if e.value = 1 then
                { s with pressed_keys := insert e.code s.pressed_keys,
                         pressed_usages := insert u s.pressed_usages }
              else if e.value = 0 then
                { s with pressed_keys := s.pressed_keys.erase e.code,
                         pressed_usages := s.pressed_usages.erase u }
              else s
            (s2, some (build_keyboard_report s2.mod_mask s2.pressed_usages))

/-- Folding `kstep` over an event list, collecting the reports written. -/
def kprocess (s : KState) : List KEvent → KState × List (List ℕ)
  | [] => (s, [])
  | e :: es =>
      let p := kstep s e
      let q := kprocess p.1 es
      (q.1, p.2.toList ++ q.2)

/-- Initial keyboard state: `mod_mask = 0` and both pressed sets empty. -/
def kinit : KState := ⟨0, ∅, ∅⟩

/-! ## Concrete report evaluations

`Finset.sort` is implemented by merge sort, whose well-founded recursion
blocks kernel evaluation, so concrete reports are evaluated through the
sort lemmas for the empty and singleton sets rather than by `decide`. -/

lemma bkr_empty (m : ℕ) :
    build_keyboard_report m ∅ = [m % 256, 0, 0, 0, 0, 0, 0, 0] := by
  unfold build_keyboard_report
  rw [Finset.sort_empty]
  rfl

lemma bkr_singleton (m u : ℕ) :
    build_keyboard_report m {u} = [m % 256, 0, u, 0, 0, 0, 0, 0] := by
  unfold build_keyboard_report
  rw [Finset.sort_singleton]
  rfl

/-! ## C6: the Shift/A scenario -/

/-- Report stream of the scenario Down(LeftShift), Down(A), Up(A),
Up(LeftShift), evaluated up to the keyboard-report builder. -/
lemma c6_eval :
    (kprocess kinit [⟨42, 1⟩, ⟨30, 1⟩, ⟨30, 0⟩, ⟨42, 0⟩]).2 =
      [build_keyboard_report 2 ∅, build_keyboard_report 2 {4},
       build_keyboard_report 2 ∅, build_keyboard_report 0 ∅] := rfl

/-- C6 counterexample: the claimed byte sequences (first bytes 0x80 and
0x82) are not what the code emits for the stream
Down(LeftShift), Down(A), Up(A), Up(LeftShift): LeftShift's modifier bit is
0x02, so the first byte of the first report is 0x02, not 0x80. -/
theorem c6_counterexample :
    (kprocess kinit [⟨42, 1⟩, ⟨30, 1⟩, ⟨30, 0⟩, ⟨42, 0⟩]).2 ≠
      [[0x80, 0, 0, 0, 0, 0, 0, 0], [0x82, 0, 4, 0, 0, 0, 0, 0],
       [0x80, 0, 0, 0, 0, 0, 0, 0], [0, 0, 0, 0, 0, 0, 0, 0]] := by
  rw [c6_eval]
  simp only [bkr_empty, bkr_singleton]
  decide

/-- C6 amended: the stream Down(LeftShift), Down(A), Up(A), Up(LeftShift)
from the all-released state emits exactly four full-state reports
02 00 00.., 02 00 04 00.., 02 00 00.., 00 00 00.. (modifier byte 0x02 while
Shift is held, usage 0x04 for A); moreover every event either emits a
full-state report or leaves the state unchanged (repeats and unknown keys),
so a report is written after every state-changing event. -/
theorem c6_amended :
    (kprocess kinit [⟨42, 1⟩, ⟨30, 1⟩, ⟨30, 0⟩, ⟨42, 0⟩]).2 =
      [[0x02, 0, 0, 0, 0, 0, 0, 0], [0x02, 0, 4, 0, 0, 0, 0, 0],
       [0x02, 0, 0, 0, 0, 0, 0, 0], [0, 0, 0, 0, 0, 0, 0, 0]] ∧
    ∀ (s : KState) (e : KEvent),
      ((kstep s e).2).isSome = true ∨ (kstep s e).1 = s := by
  constructor
  · rw [c6_eval]
    simp only [bkr_empty, bkr_singleton]
  · intro s e
    by_cases h2 : e.value = 2
    · simp [kstep, h2]
    · cases hm : MODIFIER_KEYS e.code with
      | some bit => simp [kstep, h2, hm]
      | none =>
          cases hk : KEY_TO_HID e.code with
          | none => simp [kstep, h2, hm, hk]
          | some u => simp [kstep, h2, hm, hk]

/-! ## C7: down-up round trip -/

/-- Any bit stored in the `MODIFIER_KEYS` table is one of the eight HID
modifier bits. -/
lemma modifier_bit_cases {code bit : ℕ} (h : MODIFIER_KEYS code = some bit) :
    bit = 1 ∨ bit = 2 ∨ bit = 4 ∨ bit = 8 ∨ bit = 16 ∨ bit = 32 ∨
      bit = 64 ∨ bit = 128 := by
  unfold MODIFIER_KEYS at h
  split at h <;> simp_all

set_option maxRecDepth 4000 in
/-- Setting then clearing a single modifier bit restores a byte-sized mask
in which that bit was clear. -/
lemma mask_or_and_cancel :
    ∀ m < 256,
      (m &&& 1 = 0 → (m ||| 1) &&& 254 = m) ∧
      (m &&& 2 = 0 → (m ||| 2) &&& 253 = m) ∧
      (m &&& 4 = 0 → (m ||| 4) &&& 251 = m) ∧
      (m &&& 8 = 0 → (m ||| 8) &&& 247 = m) ∧
      (m &&& 16 = 0 → (m ||| 16) &&& 239 = m) ∧
      (m &&& 32 = 0 → (m ||| 32) &&& 223 = m) ∧
      (m &&& 64 = 0 → (m ||| 64) &&& 191 = m) ∧
      (m &&& 128 = 0 → (m ||| 128) &&& 127 = m) := by
  decide

set_option maxRecDepth 20000 in
/-- C7 counterexample: the down-up round trip fails on a reachable state.
After Down(KEY_COMPOSE) the state holds usage 0x65; processing
Down(KEY_MENU) then Up(KEY_MENU) (an alias for the same usage) empties
`pressed_usages` instead of restoring it. -/
theorem c7_counterexample :
    ((kstep (kstep (kprocess kinit [⟨127, 1⟩]).1 ⟨139, 1⟩).1
        ⟨139, 0⟩).1).pressed_usages ≠
      ((kprocess kinit [⟨127, 1⟩]).1).pressed_usages := by
  show (∅ : Finset ℕ) ≠ {101}
  decide

/-- C7 amended: processing Down then Up for the same keycode restores
`mod_mask` and `pressed_usages` provided the key was not already
contributing to the state: for a modifier keycode its bit must not already
be set, and for a mapped regular keycode its usage must not already be in
`pressed_usages` (the aliased usages of C10 violate this side condition).
The mask must be byte-sized, which holds for every reachable state. -/
theorem c7_down_up_round_trip (s : KState) (code : ℕ)
    (hmask : s.mod_mask < 256)
    (hmod : match MODIFIER_KEYS code with
            | some bit => s.mod_mask &&& bit = 0
            | none => True)
    (hkey : match KEY_TO_HID code with
            | some u => u ∉ s.pressed_usages
            | none => True) :
    ((kstep (kstep s ⟨code, 1⟩).1 ⟨code, 0⟩).1).mod_mask = s.mod_mask ∧
    ((kstep (kstep s ⟨code, 1⟩).1 ⟨code, 0⟩).1).pressed_usages =
      s.pressed_usages := by
  cases hm : MODIFIER_KEYS code with
  | some bit =>
      rw [hm] at hmod
      have h1 : kstep s ⟨code, 1⟩ =
          ({ s with mod_mask := s.mod_mask ||| bit },
            some (build_keyboard_report (s.mod_mask ||| bit)
              s.pressed_usages)) := by
        simp [kstep, hm]
      have h2 : kstep { s with mod_mask := s.mod_mask ||| bit } ⟨code, 0⟩ =
          ({ s with mod_mask := (s.mod_mask ||| bit) &&& (255 - bit) },
            some (build_keyboard_report ((s.mod_mask ||| bit) &&& (255 - bit))
              s.pressed_usages)) := by
        simp [kstep, hm]
      rw [h1, h2]
      refine ⟨?_, rfl⟩
      have hfacts := mask_or_and_cancel s.mod_mask hmask
      rcases modifier_bit_cases hm with h | h | h | h | h | h | h | h <;> subst h
      · exact hfacts.1 hmod
      · exact hfacts.2.1 hmod
      · exact hfacts.2.2.1 hmod
      · exact hfacts.2.2.2.1 hmod
      · exact hfacts.2.2.2.2.1 hmod
      · exact hfacts.2.2.2.2.2.1 hmod
      · exact hfacts.2.2.2.2.2.2.1 hmod
      · exact hfacts.2.2.2.2.2.2.2 hmod
  | none =>
      cases hk : KEY_TO_HID code with
      | none => simp [kstep, hm, hk]
      | some u =>
          rw [hk] at hkey
          have h1 : kstep s ⟨code, 1⟩ =
              ({ s with pressed_keys := insert code s.pressed_keys,
                        pressed_usages := insert u s.pressed_usages },
                some (build_keyboard_report s.mod_mask
                  (insert u s.pressed_usages))) := by
            simp [kstep, hm, hk]
          have h2 : kstep
              { s with pressed_keys := insert code s.pressed_keys,
                       pressed_usages := insert u s.pressed_usages }
              ⟨code, 0⟩ =
              ({ s with pressed_keys :=
                          (insert code s.pressed_keys).erase code,
                        pressed_usages :=
                          (insert u s.pressed_usages).erase u },
                some (build_keyboard_report s.mod_mask
                  ((insert u s.pressed_usages).erase u))) := by
            simp [kstep, hm, hk]
          rw [h1, h2]
          exact ⟨rfl, Finset.erase_insert hkey⟩

/-- Witness for C7 at a concrete input: the all-released state and
keycode 30 (KEY_A). -/
theorem c7_down_up_round_trip_witness :
    (kinit.mod_mask < 256 ∧
     (match MODIFIER_KEYS 30 with
      | some bit => kinit.mod_mask &&& bit = 0
      | none => True) ∧
     (match KEY_TO_HID 30 with
      | some u => u ∉ kinit.pressed_usages
      | none => True)) ∧
    (((kstep (kstep kinit ⟨30, 1⟩).1 ⟨30, 0⟩).1).mod_mask = kinit.mod_mask ∧
     ((kstep (kstep kinit ⟨30, 1⟩).1 ⟨30, 0⟩).1).pressed_usages =
       kinit.pressed_usages) :=
  ⟨⟨by decide, by exact trivial, by exact Finset.not_mem_empty 4⟩,
    c7_down_up_round_trip kinit 30 (by decide) (by exact trivial)
      (by exact Finset.not_mem_empty 4)⟩

/-! ## C9: unknown keycodes -/

/-- C9: a keycode absent from both `MODIFIER_KEYS` and `KEY_TO_HID` leaves
the keyboard state unchanged and emits no report, for Down, Up and every
other value, and processing simply continues with the rest of the stream.
The embedding is total, so no error can be raised. -/
theorem c9_unknown_keycode (s : KState) (code value : ℕ)
    (hmod : MODIFIER_KEYS code = none) (hkey : KEY_TO_HID code = none) :
    kstep s ⟨code, value⟩ = (s, none) ∧
    ∀ es : List KEvent, kprocess s (⟨code, value⟩ :: es) = kprocess s es := by
  have hstep : kstep s ⟨code, value⟩ = (s, none) := by
    by_cases h2 : value = 2
    · simp [kstep, h2]
    · simp [kstep, h2, hmod, hkey]
  refine ⟨hstep, fun es => ?_⟩
  simp [kprocess, hstep]

/-- Witness for C9 at a concrete input: keycode 200 (not in either table),
a Down event, from the all-released state. -/
theorem c9_unknown_keycode_witness :
    (MODIFIER_KEYS 200 = none ∧ KEY_TO_HID 200 = none) ∧
    kstep kinit ⟨200, 1⟩ = (kinit, none) :=
  ⟨⟨rfl, rfl⟩, (c9_unknown_keycode kinit 200 1 rfl rfl).1⟩

/-! ## C10: the COMPOSE/MENU usage alias -/

set_option maxRecDepth 20000 in
/-- C10: `KEY_TO_HID` is not injective: KEY_COMPOSE (127) and KEY_MENU
(139) both map to usage 0x65.  With both keys held, releasing MENU removes
usage 0x65 from `pressed_usages` and from the emitted report even though
COMPOSE is still held (it remains in `pressed_keys`). -/
theorem c10_compose_menu_alias :
    KEY_TO_HID 127 = some 0x65 ∧ KEY_TO_HID 139 = some 0x65 ∧
    (127 : ℕ) ≠ 139 ∧
    ((kstep (kprocess kinit [⟨127, 1⟩, ⟨139, 1⟩]).1 ⟨139, 0⟩).1.pressed_usages
        = ∅ ∧
     127 ∈ (kstep (kprocess kinit [⟨127, 1⟩, ⟨139, 1⟩]).1 ⟨139, 0⟩).1.pressed_keys ∧
     (kstep (kprocess kinit [⟨127, 1⟩, ⟨139, 1⟩]).1 ⟨139, 0⟩).2 =
       some [0, 0, 0, 0, 0, 0, 0, 0]) := by
  refine ⟨rfl, rfl, by decide, by decide, by decide, ?_⟩
  have h : (kstep (kprocess kinit [⟨127, 1⟩, ⟨139, 1⟩]).1 ⟨139, 0⟩).2 =
      some (build_keyboard_report 0 ∅) := rfl
  rw [h, bkr_empty]

/-! ## Endpoint writer (pi500-hid-bridge.py lines 149-170)

`write_report` loops over `os.write` attempts.  Each attempt's outcome is
one of: success; `BlockingIOError` with errno EAGAIN (sleep 10ms, retry,
no counter); `BrokenPipeError` with errno EPIPE/ENOTCONN (increment
`retry_count`, re-raise once it reaches `max_retries`, otherwise sleep
100ms and retry); any other failure, which the handlers re-raise at once.
The loop is embedded as a function over the script of attempt outcomes,
returning the terminal result and the number of sleeps of each kind. -/

inductive WriteOutcome
  | ok
  | eagain
  | brokenPipe
  | otherErr
deriving DecidableEq

inductive WriteResult
  | success
  | fatal
  | raised
  | pending
deriving DecidableEq

/-- Terminal result of a `write_report` call plus its sleep counts. -/
structure WriteTrace where
  result : WriteResult
  sleeps10ms : ℕ
  sleeps100ms : ℕ
deriving DecidableEq

/-- Embedding of `max_retries = 100`. -/
def max_retries : ℕ := 100

/-- One pass of the `write_report` retry loop over the outcome script,
carrying the `retry_count` accumulator. `pending` marks a script exhausted
while the loop would still be retrying. -/
def write_report_go (retry_count : ℕ) : List WriteOutcome → WriteTrace
  | [] => ⟨.pending, 0, 0⟩
  | .ok :: _ => ⟨.success, 0, 0⟩
  | .eagain :: rest =>
      let t := write_report_go retry_count rest
      ⟨t.result, t.sleeps10ms + 1, t.sleeps100ms⟩
  | .brokenPipe :: rest =>
      if max_retries ≤ retry_count + 1 then ⟨.fatal, 0, 0⟩
      else
        let t := write_report_go (retry_count + 1) rest
        ⟨t.result, t.sleeps10ms, t.sleeps100ms + 1⟩
  | .otherErr :: _ => ⟨.raised, 0, 0⟩

/-- `write_report` starts with `retry_count = 0`. -/
def write_report_run (outcomes : List WriteOutcome) : WriteTrace :=
  write_report_go 0 outcomes

lemma write_go_eagain (rc : ℕ) (l : List WriteOutcome) :
    ∀ n, write_report_go rc (List.replicate n .eagain ++ l) =
      ⟨(write_report_go rc l).result,
       (write_report_go rc l).sleeps10ms + n,
       (write_report_go rc l).sleeps100ms⟩ := by
  intro n
  induction n with
  | zero => simp
  | succ k ih =>
      rw [List.replicate_succ, List.cons_append]
      show (⟨_, _ + 1, _⟩ : WriteTrace) = _
      rw [ih]
      simp [Nat.add_assoc]

lemma write_go_pipe_ok :
    ∀ (k rc : ℕ), rc + k < max_retries →
      write_report_go rc (List.replicate k .brokenPipe ++ [.ok]) =
        ⟨.success, 0, k⟩ := by
  intro k
  induction k with
  | zero => intro rc _; simp [write_report_go]
  | succ j ih =>
      intro rc hrc
      rw [List.replicate_succ, List.cons_append]
      show write_report_go rc (.brokenPipe :: _) = _
      rw [write_report_go]
      rw [if_neg (by unfold max_retries at hrc ⊢; omega)]
      rw [ih (rc + 1) (by omega)]

lemma write_go_pipe_fatal (rest : List WriteOutcome) :
    ∀ (k rc : ℕ), 1 ≤ k → rc + k = max_retries →
      write_report_go rc (List.replicate k .brokenPipe ++ rest) =
        ⟨.fatal, 0, k - 1⟩ := by
  intro k
  induction k with
  | zero => omega
  | succ j ih =>
      intro rc _ hrc
      rw [List.replicate_succ, List.cons_append, write_report_go]
      by_cases hj : j = 0
      · subst hj
        rw [if_pos (by omega)]
      · rw [if_neg (by omega)]
        rw [ih (rc + 1) (by omega) (by omega)]
        simp
        omega

/-- C3: the retry policy of `write_report`.  A not-ready (EAGAIN) failure
is retried without bound: for every n, a script of n EAGAIN failures then a
success succeeds after exactly n 10ms sleeps and no 100ms sleep.  A
disconnected (broken-pipe) failure is retried at most `max_retries` times:
k < 100 such failures before a success still succeed (with k 100ms
sleeps), while the 100th consecutive broken-pipe failure surfaces the
fatal error to the caller regardless of what the endpoint would do next.
Any other OS-level failure is re-raised immediately, with no retry and no
further sleep. -/
theorem c3_write_report_retry_policy :
    (∀ n : ℕ, write_report_run (List.replicate n .eagain ++ [.ok]) =
      ⟨.success, n, 0⟩) ∧
    (∀ k : ℕ, k < max_retries →
      write_report_run (List.replicate k .brokenPipe ++ [.ok]) =
        ⟨.success, 0, k⟩) ∧
    (∀ rest : List WriteOutcome,
      write_report_run (List.replicate max_retries .brokenPipe ++ rest) =
        ⟨.fatal, 0, max_retries - 1⟩) ∧
    (∀ (n : ℕ) (rest : List WriteOutcome),
      write_report_run (List.replicate n .eagain ++ .otherErr :: rest) =
        ⟨.raised, n, 0⟩) := by
  refine ⟨fun n => ?_, fun k hk => ?_, fun rest => ?_, fun n rest => ?_⟩
  · rw [write_report_run, write_go_eagain]
    simp [write_report_go]
  · exact write_go_pipe_ok k 0 (by omega)
  · exact write_go_pipe_fatal rest max_retries 0 (by decide) rfl
  · rw [write_report_run, write_go_eagain]
    simp [write_report_go]

/-- Witness for C3 at concrete inputs: 3 EAGAIN failures then success;
5 broken-pipe failures then success; 100 broken-pipe failures; an
immediate unexpected failure after 2 EAGAIN failures. -/
theorem c3_write_report_retry_policy_witness :
    write_report_run (List.replicate 3 .eagain ++ [.ok]) =
      ⟨.success, 3, 0⟩ ∧
    (5 < max_retries ∧
     write_report_run (List.replicate 5 .brokenPipe ++ [.ok]) =
       ⟨.success, 0, 5⟩) ∧
    write_report_run (List.replicate max_retries .brokenPipe ++ []) =
      ⟨.fatal, 0, max_retries - 1⟩ ∧
    write_report_run (List.replicate 2 .eagain ++ .otherErr :: []) =
      ⟨.raised, 2, 0⟩ :=
  ⟨c3_write_report_retry_policy.1 3,
   ⟨by decide, c3_write_report_retry_policy.2.1 5 (by decide)⟩,
   c3_write_report_retry_policy.2.2.1 [],
   c3_write_report_retry_policy.2.2.2 2 []⟩

/-! ## C5: keyboard bridge exit paths (pi500-hid-bridge.py lines 272-341)

`run_keyboard_bridge` writes an initial all-released report, processes the
event stream, and in a `finally` block writes a final all-released report
(with its own failure swallowed by `except Exception: pass`).  A
`KeyboardInterrupt` is caught and not re-raised; any other exception
propagates after the `finally` block ran.  The run is embedded as a
function of the event list, the exit path (normal end of stream, interrupt
after k events, or a propagated error after k events), and whether the
final write itself succeeds; it returns the reports written in order and
whether an exception leaves the function. -/

inductive ExitPath
  | normal
  | interrupted (k : ℕ)
  | errored (k : ℕ)
deriving DecidableEq

/-- Reports written by one keyboard-bridge run, and whether it re-raises. -/
def keyboard_run (events : List KEvent) (p : ExitPath)
    (finalWriteOk : Bool) : List (List ℕ) × Bool :=
  let processed :=
    match p with
    | .normal => events
    | .interrupted k => events.take k
    | .errored k => events.take k
  let ws := build_keyboard_report 0 ∅ :: (kprocess kinit processed).2
  let final := if finalWriteOk then [build_keyboard_report 0 ∅] else []
  (ws ++ final,
   match p with
   | .errored _ => true
   | _ => false)

/-- C5: on every exit path — normal return, interrupt after any prefix, or
a propagated error after any prefix — the last report written before the
endpoint is closed is the all-released report (mask 0, no usages), even if
keys are held when the run stops; an interrupt is swallowed (the run does
not re-raise); and a failure of the final write is itself swallowed: it
never changes whether the run re-raises. -/
theorem c5_final_all_released (events : List KEvent) (p : ExitPath) :
    (keyboard_run events p true).1.getLast? =
      some (build_keyboard_report 0 ∅) ∧
    (∀ k b, (keyboard_run events (.interrupted k) b).2 = false) ∧
    (∀ b, (keyboard_run events p b).2 = (keyboard_run events p true).2) := by
  refine ⟨?_, fun k b => rfl, fun b => ?_⟩
  · show (_ ++ [build_keyboard_report 0 ∅]).getLast? = _
    rw [List.getLast?_concat]
  · cases p <;> cases b <;> rfl

/-! ## Mouse event processing (pi500-hid-bridge.py lines 423-471)

`_process_mouse_events` keeps `buttons`, `prev_buttons` and three motion
accumulators; `EV_REL` events (REL_X = 0, REL_Y = 1, REL_WHEEL = 8)
accumulate, `EV_KEY` events on the mapped buttons (BTN_LEFT = 272 bit 1,
BTN_RIGHT = 273 bit 2, BTN_MIDDLE = 274 bit 4) set or clear mask bits
(Python `buttons &= ~bit` equals `buttons - (buttons &&& bit)` for a
single-bit mask), and an `EV_SYN`/`SYN_REPORT` (code 0) marker emits a
report exactly when an accumulator is nonzero or the mask changed since
the last emitted report. -/

inductive MouseEv
  | rel (code : ℕ) (value : ℤ)
  | key (code : ℕ) (value : ℕ)
  | syn (code : ℕ)
deriving DecidableEq

/-- Embedding of the `BUTTON_MAP` dictionary. -/
def BUTTON_MAP : ℕ → Option ℕ
  | 272 => some 0x01   -- BTN_LEFT
  | 273 => some 0x02   -- BTN_RIGHT
  | 274 => some 0x04   -- BTN_MIDDLE
  | _ => none

/-- Local state of `_process_mouse_events`. -/
structure MouseProcState where
  buttons : ℕ
  prev_buttons : ℕ
  dx_accum : ℤ
  dy_accum : ℤ
  wheel_accum : ℤ
deriving DecidableEq

/-- One iteration of the `_process_mouse_events` loop body; the second
component is the report written at this event, if any. -/
def mouse_step (s : MouseProcState) :
    MouseEv → MouseProcState × Option (List ℕ)
  | .rel code v =>
      (if code = 0 then { s with dx_accum := s.dx_accum + v }
       else if code = 1 then { s with dy_accum := s.dy_accum + v }
       else if code = 8 then { s with wheel_accum := s.wheel_accum + v }
       else s, none)
  | .key code v =>
      (match BUTTON_MAP code with
       | some bit =>
           if v = 1 then { s with buttons := s.buttons ||| bit }
           else if v = 0 then
             { s with buttons := s.buttons - (s.buttons &&& bit) }
           else s
       | none => s, none)
  | .syn code =>
      if code = 0 then
        if s.dx_accum ≠ 0 ∨ s.dy_accum ≠ 0 ∨ s.wheel_accum ≠ 0 ∨
            s.buttons ≠ s.prev_buttons then
          ({ s with dx_accum := 0, dy_accum := 0, wheel_accum := 0,
                    prev_buttons := s.buttons },
           some (build_mouse_report s.buttons s.dx_accum s.dy_accum
             s.wheel_accum))
        else (s, none)
      else (s, none)

/-- Folding `mouse_step` over an event list, collecting the reports. -/
def mouse_process (s : MouseProcState) :
    List MouseEv → MouseProcState × List (List ℕ)
  | [] => (s, [])
  | e :: es =>
      let p := mouse_step s e
      let q := mouse_process p.1 es
      (q.1, p.2.toList ++ q.2)

/-- State of `_process_mouse_events` at loop entry. -/
def minit : MouseProcState := ⟨0, 0, 0, 0, 0⟩

/-- C4: at a SYN_REPORT marker a mouse report is built and written exactly
when an accumulator is nonzero or the button mask differs from the mask at
the last emitted report; when one is emitted it carries the accumulated
motion, the accumulators are reset and the emitted mask becomes the new
baseline, and otherwise the state is untouched and nothing is written.  In
particular the stream RelX(+5), RelY(-3), Sync followed by a second Sync
emits exactly one report, bytes 00 05 FD 00. -/
theorem c4_sync_emission :
    (∀ s : MouseProcState,
      mouse_step s (.syn 0) =
        if s.dx_accum ≠ 0 ∨ s.dy_accum ≠ 0 ∨ s.wheel_accum ≠ 0 ∨
            s.buttons ≠ s.prev_buttons then
          (⟨s.buttons, s.buttons, 0, 0, 0⟩,
           some (build_mouse_report s.buttons s.dx_accum s.dy_accum
             s.wheel_accum))
        else (s, none)) ∧
    (mouse_process minit [.rel 0 5, .rel 1 (-3), .syn 0, .syn 0]).2 =
      [[0x00, 0x05, 0xFD, 0x00]] := by
  constructor
  · intro s
    rfl
  · show [build_mouse_report 0 5 (-3) 0] = _
    simp [build_mouse_report, signed_byte, clamp]

/-! ## C8: mouse lifecycle manager (pi500-hid-bridge.py lines 348-421)

`MouseBridge.run` loops while `self.running`: it searches for a device
(sleeping ~1s when none is found), attaches and optionally grabs a new
one, and processes its events; `_process_mouse_events` first writes a
neutral report, then drains events.  An `OSError` during processing is
handled by the `except OSError` block: ungrab if a grab is held, clear
`current_device` (back to searching) and sleep ~0.5s — the handler writes
nothing.  A non-OS exception only logs and sleeps.  `self.running` is
cleared only by `stop()`.  The loop is embedded over a script of
per-iteration outcomes; a `stop` item models `stop()` arriving before the
next `while` check. -/

inductive MAction
  | grabDev
  | ungrabDev
  | writeRep (r : List ℕ)
  | sleepSearch
  | sleepBackoff
deriving DecidableEq

inductive MIter
  | stopRequest
  | noDevice
  | foundOsError
  | foundOtherError
deriving DecidableEq

/-- Result of running (part of) the `MouseBridge.run` loop: the effects in
order, whether a device is held, and whether `self.running` is still
true. -/
structure MRunState where
  acts : List MAction
  attached : Bool
  running : Bool
deriving DecidableEq

/-- The neutral "no motion, no buttons" mouse report. -/
def neutral_report : List ℕ := build_mouse_report 0 0 0 0

/-- Embedding of the `except OSError` handler of `MouseBridge.run` (lines
396-406): ungrab if a grab is held on the attached device, clear
`current_device`, sleep; it performs no write. -/
def mouse_os_error_handler (grab attached : Bool) : MRunState :=
  ⟨(if attached && grab then [.ungrabDev] else []) ++ [.sleepBackoff],
   false, true⟩

/-- Attach-time effects at the top of a loop iteration that found a
device: a newly found device is grabbed when `--grab` is set. -/
def attach_actions (grab attached : Bool) : List MAction :=
  if attached then [] else if grab then [.grabDev] else []

/-- One iteration of the `MouseBridge.run` while-loop, by scripted
outcome.  A found device's processing starts with the neutral write of
`_process_mouse_events`; an OSError then runs the handler; a non-OS error
keeps `current_device` and sleeps. -/
def mouse_iter_step (grab attached : Bool) : MIter → MRunState
  | .stopRequest => ⟨[], attached, false⟩
  | .noDevice => ⟨[.sleepSearch], false, true⟩
  | .foundOsError =>
      let h := mouse_os_error_handler grab true
      ⟨attach_actions grab attached ++ [.writeRep neutral_report] ++ h.acts,
       h.attached, h.running⟩
  | .foundOtherError =>
      ⟨attach_actions grab attached ++ [.writeRep neutral_report] ++
        [.sleepBackoff], true, true⟩

/-- The `while self.running` loop folded over an outcome script. -/
def mouse_loop (grab : Bool) (attached running : Bool) :
    List MIter → MRunState
  | [] => ⟨[], attached, running⟩
  | it :: rest =>
      if running then
        let s := mouse_iter_step grab attached it
        let n := mouse_loop grab s.attached s.running rest
        ⟨s.acts ++ n.acts, n.attached, n.running⟩
      else ⟨[], attached, running⟩

/-- C8 counterexample: the claim says the I/O-failure response includes a
best-effort neutral report, but the `except OSError` handler (with a grab
held on an attached device) performs no write at all — its effects are
exactly ungrab then the backoff sleep. -/
theorem c8_counterexample :
    MAction.writeRep neutral_report ∉ (mouse_os_error_handler true true).acts ∧
    (mouse_os_error_handler true true).acts =
      [MAction.ungrabDev, MAction.sleepBackoff] := by
  exact ⟨by decide, rfl⟩

/-- C8 amended: on an I/O failure while a device is attached, the handler
releases the grab when one is held, performs no write, and returns the
manager to the searching state with the loop still live; an explicit stop
request is the only script item that ends the loop: any script without one
leaves `running` true, and a stop request turns `running` false and stops
all further iteration work. -/
theorem c8_os_error_self_healing :
    (∀ grab attached : Bool,
      (mouse_os_error_handler grab attached).attached = false ∧
      (mouse_os_error_handler grab attached).running = true) ∧
    MAction.ungrabDev ∈ (mouse_os_error_handler true true).acts ∧
    (∀ grab attached : Bool,
      (mouse_iter_step grab attached .foundOsError).running = true ∧
      (mouse_iter_step grab attached .foundOsError).attached = false) ∧
    (∀ (grab attached : Bool) (script : List MIter),
      (∀ it ∈ script, it ≠ .stopRequest) →
      (mouse_loop grab attached true script).running = true) ∧
    (∀ (grab attached : Bool) (rest : List MIter),
      (mouse_loop grab attached true (.stopRequest :: rest)).running = false ∧
      (mouse_loop grab attached true (.stopRequest :: rest)).acts = []) := by
  refine ⟨fun grab attached => ⟨rfl, rfl⟩, by decide,
    fun grab attached => ⟨rfl, rfl⟩, ?_, ?_⟩
  · intro grab attached script
    induction script generalizing attached with
    | nil => intro _; rfl
    | cons it rest ih =>
        intro hno
        have hit : it ≠ .stopRequest := hno it (List.mem_cons_self it rest)
        have hrest : ∀ i ∈ rest, i ≠ .stopRequest :=
          fun i hi => hno i (List.mem_cons_of_mem it hi)
        cases it with
        | stopRequest => exact absurd rfl hit
        | noDevice =>
            show (mouse_loop grab false true rest).running = true
            exact ih false hrest
        | foundOsError =>
            show (mouse_loop grab false true rest).running = true
            exact ih false hrest
        | foundOtherError =>
            show (mouse_loop grab true true rest).running = true
            exact ih true hrest
  · intro grab attached rest
    constructor
    · show (mouse_loop grab attached false rest).running = false
      cases rest <;> rfl
    · show ([] ++ (mouse_loop grab attached false rest).acts) = []
      cases rest <;> rfl

/-- Witness for C8 at a concrete input: a two-iteration script (device
lost, then an OSError while attached) containing no stop request. -/
theorem c8_os_error_self_healing_witness :
    (∀ it ∈ ([.noDevice, .foundOsError] : List MIter),
      it ≠ MIter.stopRequest) ∧
    (mouse_loop true true true [.noDevice, .foundOsError]).running = true :=
  ⟨by decide,
    c8_os_error_self_healing.2.2.2.1 true true [.noDevice, .foundOsError]
      (by decide)⟩
